import Mathlib

/-
Shallow embedding of src/src/image_node_parser_workflow.py (class
ImageNodeParserWorkflow) from the image_video_parser repository.

Modelling conventions:
- Python machine values that the orchestration code only passes around
  (pixel data, masks, model handles) are opaque terms.
- External collaborators (the multimodal LLM, the OWLv2 detector, the SAM2
  predictor, PIL JPEG encoding success) are oracle functions collected in
  an environment record; the orchestration logic itself is translated
  line by line from the source.
- Python exceptions are modelled with Except PyErr; a step that mutates
  state before raising keeps the mutations, so every stateful function
  returns a pair of an Except value and the final state.
- Configuration dictionaries are insertion-ordered association lists.
  Because the workflow mutates one of them in place while event
  construction makes validated copies of dict-typed fields (pydantic v2
  copies dict values during model validation; llama_index events are
  pydantic models with declared dict fields), dictionaries live in an
  explicit store and events carry references into it.
- The class attribute _default_predictor_configuration carries a trailing
  comma in the source, so its value is a one-element tuple containing the
  intended dict; the model keeps that tuple faithfully.
- llama_index facts used: Workflow.run returns stop_event.result (a
  StopEvent built with only a reason keyword leaves result at None);
  node.source_node returns relationships[SOURCE];
  node.as_related_node_info() carries the node id; kwargs of the start
  event are stored unvalidated, so the caller's dict reaches load_image
  uncopied.
- pydantic v2 validation facts used: a declared field annotated
  dict | None without a default is required, so an event construction
  that omits it raises ValidationError — this hits ImageLoadedEvent in
  the prebuilt-image and base64 branches of load_image (lines 115, 118)
  and BBoxCreatedEvent at the return of create_bboxes (line 159, outside
  the try); a tuple value fails validation of such a field, which is
  what the malformed class default would hit; dict values that do
  validate are copied.
-/

/-- Python exception values distinguished by the workflow logic. -/
inductive PyErr where
  | keyError (k : String)
  | attributeError
  | typeError
  | validationError
  | exn (s : String)
deriving DecidableEq, Repr

/-- A SAM2 mask, opaque to the orchestration code.  The source extracts
the mask from the predictor output as ann[0][-1]; the oracle returns the
extracted mask directly. -/
abbrev SegMask := Nat

/-- PIL images as a free term algebra: the orchestration code never
inspects pixels, it only opens, blanks, composites and crops. -/
inductive PILImage where
  | file (path : String)
  | source (n : Nat)
  | blankLike (img : PILImage)
  | composite (a b : PILImage) (m : SegMask)
  | crop (a : PILImage) (x1 y1 x2 y2 : Int)
deriving DecidableEq, Repr

/-- A base64 image payload, remembering the pixel content it encodes and
the encoder format that produced it (image_to_base64 uses format JPEG). -/
structure EncodedImage where
  pix : PILImage
  format : String
deriving DecidableEq, Repr

/-- Image.open(node.resolve_image()).convert("RGB"): decoding a payload
recovers the encoded pixels (idealized as lossless). -/
def decodeRGB (e : EncodedImage) : PILImage := e.pix

/-- llama_index RelatedNodeInfo, reduced to the node identity. -/
structure RelatedNodeInfo where
  nodeId : Nat
deriving DecidableEq, Repr

/-- The ImageRegion value class of the source (a detected box with label
and confidence score). -/
structure ImageRegion where
  x1 : Int
  y1 : Int
  x2 : Int
  y2 : Int
  label : String
  score : ℚ
deriving DecidableEq, Repr

/-- Values stored in the segmentation configuration dictionary. -/
inductive CVal where
  | str (s : String)
  | regions (rs : List ImageRegion)
  | emptyDict
deriving DecidableEq, Repr

/-- A Python dict with string keys, as an insertion-ordered assoc list. -/
abbrev SegConfig := List (String × CVal)

/-- Python: k in d. -/
def dictContains (d : SegConfig) (k : String) : Bool :=
  d.any (fun p => p.1 == k)

/-- Python: d[k] as an Option (None encodes KeyError at the call site). -/
def dictGet (d : SegConfig) (k : String) : Option CVal :=
  (d.find? (fun p => p.1 == k)).map (fun p => p.2)

/-- Python: d[k] = v; an existing key keeps its position with the new
value, a new key is appended, matching dict insertion order. -/
def dictSet (d : SegConfig) (k : String) (v : CVal) : SegConfig :=
  match d with
  | [] => [(k, v)]
  | p :: rest => if p.1 == k then (k, v) :: rest else p :: dictSet rest k v

/-- The object detection configuration dict (string keys, float values
modelled as rationals; the orchestration never computes with them). -/
abbrev DetConfig := List (String × ℚ)

/-- Python: d.get(k, default) on a detection configuration dict. -/
def detGet (d : DetConfig) (k : String) (dflt : ℚ) : ℚ :=
  ((d.find? (fun p => p.1 == k)).map (fun p => p.2)).getD dflt

/-- llama_index ImageNode / ImageDocument: content, mimetype, the region
metadata written by stage 3, and the relationships used by the workflow
(SOURCE, PARENT, CHILD). -/
structure ImageNode where
  nodeId : Nat
  image : EncodedImage
  mimetype : String
  metadataRegion : Option (Int × Int × Int × Int)
  sourceRel : Option RelatedNodeInfo
  parentRel : Option RelatedNodeInfo
  childRel : List RelatedNodeInfo
deriving DecidableEq, Repr

/-- node.as_related_node_info(). -/
def ImageNode.asRelatedNodeInfo (n : ImageNode) : RelatedNodeInfo :=
  ⟨n.nodeId⟩

/-- llama_index TextNode as built by describe_image (node ids of these
throwaway description nodes are not tracked). -/
structure TextNode where
  text : String
  mimetype : String
  sourceRel : Option RelatedNodeInfo
  parentRel : Option RelatedNodeInfo
deriving DecidableEq, Repr

/-- The value of the segmentation_configuration attribute flowing through
the events: either a reference to a dict in the store, or the malformed
class-level default, which the trailing comma in the source turns into a
one-element tuple containing the intended dict. -/
inductive SegCfgVal where
  | ref (r : Nat)
  | tuple1 (d : SegConfig)
deriving DecidableEq, Repr

/-- Python dict result values: the workflow either stops with a payload
dict {source, chunks, descriptions?} or (per the spec) a failure string.
The string constructor records what a failure-reason string result would
be; whether the code ever produces one is settled by the claims. -/
structure StructuredResult where
  source : ImageNode
  chunks : List ImageNode
  descriptions : Option (List (Option TextNode))
deriving DecidableEq, Repr

inductive PyResult where
  | payload (p : StructuredResult)
  | str (s : String)
deriving DecidableEq, Repr

/-- llama_index StopEvent: the result field (what Workflow.run returns)
is distinct from extra keyword fields such as reason, which land in the
event data. -/
structure StopEvent where
  result : Option PyResult
  reason : Option String
deriving DecidableEq, Repr

/-- Events emitted via self.send_event during stage 3: the per-chunk
ImageChunkGenerated event and the WorkflowRuntimeError diagnostic sent
when a chunk fails to encode. -/
inductive Emitted where
  | chunkGenerated (n : ImageNode)
  | runtimeError
deriving DecidableEq, Repr

/-- Mutable workflow state: the dict store (dictionaries are mutated in
place and copied at event validation), a fresh node id supply, the log of
emitted events, and the count of captioning calls made by describe_image. -/
structure WFState where
  store : List SegConfig
  nextId : Nat
  emitted : List Emitted
  captionCalls : Nat
deriving DecidableEq, Repr

def WFState.alloc (s : WFState) (d : SegConfig) : Nat × WFState :=
  (s.store.length, { s with store := s.store ++ [d] })

def WFState.getDict (s : WFState) (r : Nat) : SegConfig :=
  s.store.getD r []

def WFState.setDict (s : WFState) (r : Nat) (d : SegConfig) : WFState :=
  { s with store := s.store.set r d }

def WFState.freshId (s : WFState) : Nat × WFState :=
  (s.nextId, { s with nextId := s.nextId + 1 })

def WFState.emit (s : WFState) (e : Emitted) : WFState :=
  { s with emitted := s.emitted ++ [e] }

/-- Event construction validates declared fields; pydantic v2 validation
copies dict-typed values, realized here as a fresh store allocation.  The
tuple arm is unreachable from the workflow (load_image raises before an
event carrying the malformed tuple default is ever constructed) and is
kept only for totality. -/
def validateSegCfgField (s : WFState) : SegCfgVal → SegCfgVal × WFState
  | .ref r =>
    let a := s.alloc (s.getDict r)
    (.ref a.1, a.2)
  | .tuple1 d => (.tuple1 d, s)

/-- The multimodal LLM dependency: complete(prompt, images) returning the
response text. -/
structure LLM where
  complete : String → List EncodedImage → Except PyErr String

/-- External collaborators of the workflow instance. -/
structure Env where
  llm : Option LLM
  owlDetect : PILImage → List String → ℚ → ℚ → Except PyErr (List ImageRegion)
  predict : PILImage → Int → Int → Int → Int → Except PyErr SegMask
  encodeFail : PILImage → String → Bool

/-- The class attribute _default_predictor_configuration.  The trailing
comma after the closing brace in the source makes the attribute a
one-element tuple around this dict. -/
def defaultPredictorDict : SegConfig :=
  [("model_name", .str "facebook/sam2-hiera-small"), ("sam_settings", .emptyDict)]

/-- The class attribute _object_detection_configuration:
confidence=0.1, nms_threshold=0.3. -/
def objectDetectionConfigurationDefault : DetConfig :=
  [("confidence", 1/10), ("nms_threshold", 3/10)]

/-- self.image_to_base64(pil_image, format="JPEG"): saving the PIL image
through the chosen encoder (fallible, per the environment) and base64
encoding the buffer. -/
def image_to_base64 (env : Env) (pil_image : PILImage) (format : String) :
    Except PyErr EncodedImage :=
  if env.encodeFail pil_image format then .error (.exn "encode")
  else .ok ⟨pil_image, format⟩

/-- self._ref_doc_id(node): the source node relationship when recorded,
otherwise the node itself as related info. -/
def ref_doc_id (node : ImageNode) : RelatedNodeInfo :=
  match node.sourceRel with
  | none => node.asRelatedNodeInfo
  | some source_node => source_node

/-- The fixed prompts used by the workflow. -/
def elicitPromptText : String :=
  "Find the most important entities in the image and produce a list of short prompts to use for an object detection model. Put each single prompt on a new line. Emit only the prompts."

def describePromptText : String :=
  "Describe the image above in a few words."

/-- self._detect_bboxes_with_owlv2(image_node, prompt, confidence,
nms_threshold): opens the image, splits the prompt on newlines and strips
each line, then runs the OWLv2 processor/model (the oracle).  The prompt
argument is a dynamically typed dict value; a non-string makes
prompt.split raise AttributeError. -/
def detect_bboxes_with_owlv2 (env : Env) (image_node : ImageNode)
    (prompt : CVal) (confidence nms_threshold : ℚ) :
    Except PyErr (List ImageRegion) :=
  match prompt with
  | .str p =>
    env.owlDetect (decodeRGB image_node.image)
      ((p.splitOn "\n").map String.trim) confidence nms_threshold
  | _ => .error .attributeError

/-- The StartEvent as consumed by load_image: kwargs of workflow.run.
A field left at none models both an absent attribute and an explicit
None (load_image treats them alike via hasattr and is-not-None checks,
except mimetype, where an absent attribute raises AttributeError).  The
caller's segmentation configuration dict is passed by reference (start
event kwargs are stored unvalidated). -/
structure StartEvent where
  image : Option ImageNode := none
  base64_image : Option EncodedImage := none
  mimetype : Option String := none
  image_path : Option String := none
  segmentation_configuration : Option Nat := none
deriving DecidableEq, Repr

/-- The ImageLoadedEvent of the source (its declared dict fields have
been validated at construction). -/
structure ImageLoadedEvent where
  image : ImageNode
  segmentation_configuration : SegCfgVal
  object_detection_configuration : Option DetConfig
deriving DecidableEq, Repr

/-- The BBoxCreatedEvent of the source.  Its declared fields include
object_detection_configuration (dict | None, no default), required under
pydantic v2; the construction at line 159 omits it, so the workflow can
never actually complete one. -/
structure BBoxCreatedEvent where
  image : ImageNode
  segmentation_configuration : SegCfgVal
  object_detection_configuration : Option DetConfig
deriving DecidableEq, Repr

/-- The ImageParsedEvent of the source. -/
structure ImageParsedEvent where
  source : ImageNode
  chunks : List ImageNode
deriving DecidableEq, Repr

inductive LoadOut where
  | loaded (ev : ImageLoadedEvent)
  | stop (ev : StopEvent)
deriving DecidableEq, Repr

inductive BBoxOut where
  | created (ev : BBoxCreatedEvent)
  | stop (ev : StopEvent)
deriving DecidableEq, Repr

inductive ParseOut where
  | parsed (ev : ImageParsedEvent)
  | stop (ev : StopEvent)
deriving DecidableEq, Repr

/-- Step load_image: picks the default configurations from the class
attributes, substitutes a caller-supplied segmentation configuration for
the default when present, then resolves the input.  The prebuilt-image
and base64 branches construct ImageLoadedEvent without the required
object_detection_configuration field, so pydantic validation raises and
no loaded event is produced (on the base64 branch the ImageDocument —
whose mimetype read can itself raise AttributeError — is created first).
Only the image_path branch passes all three fields: it opens the file,
converts to RGB, re-encodes as JPEG with mimetype image/jpg and attaches
the default detection configuration; with no caller configuration the
class default — a one-element tuple, by the trailing comma — fails
validation of the dict field there as well.  With no input at all the
step returns a bare StopEvent. -/
def load_image (env : Env) (start : StartEvent) (s : WFState) :
    Except PyErr LoadOut × WFState :=
  let sam_configuration : SegCfgVal :=
    match start.segmentation_configuration with
    | some r => .ref r
    | none => .tuple1 defaultPredictorDict
  match start.image with
  | some _node =>
    (.error .validationError, s)
  | none =>
    match start.base64_image with
    | some _b =>
      match start.mimetype with
      | none => (.error .attributeError, s)
      | some _m =>
        let f := s.freshId
        (.error .validationError, f.2)
    | none =>
      match start.image_path with
      | some p =>
        let pil := PILImage.file p
        match image_to_base64 env pil "JPEG" with
        | .error e => (.error e, s)
        | .ok enc =>
          let f := s.freshId
          let document : ImageNode :=
            { nodeId := f.1, image := enc, mimetype := "image/jpg",
              metadataRegion := none, sourceRel := none, parentRel := none,
              childRel := [] }
          match sam_configuration with
          | .tuple1 _ => (.error .validationError, f.2)
          | .ref r =>
            let v := validateSegCfgField f.2 (.ref r)
            (.ok (.loaded ⟨document, v.1,
              some objectDetectionConfigurationDefault⟩), v.2)
      | none => (.ok (.stop ⟨none, none⟩), s)

/-- The try block of create_bboxes.  When the configuration is a dict
without "bbox_list": elicit a prompt from the multimodal LLM if none is
stored (None.complete raises AttributeError when no LLM is configured),
write the response text into the configuration dict in place, then call
the detector with the stored prompt and the confidence and NMS values
read from the object detection configuration with .get defaults 0.1 and
0.3 (a missing detection configuration is None, so .get raises
AttributeError).  The detected region list is bound to a local variable
and never stored anywhere.  When the configuration is the malformed
tuple default, the membership tests on the tuple succeed vacuously and
the item assignment tuple["prompt"] raises TypeError. -/
def create_bboxes_try (env : Env) (ev : ImageLoadedEvent) (s : WFState) :
    Except PyErr Unit × WFState :=
  match ev.segmentation_configuration with
  | .tuple1 _ =>
    (match env.llm with
     | none => (.error .attributeError, s)
     | some llm =>
       match llm.complete elicitPromptText [ev.image.image] with
       | .error e => (.error e, s)
       | .ok _ => (.error .typeError, s))
  | .ref r =>
    let cfg := s.getDict r
    if dictContains cfg "bbox_list" then (.ok (), s)
    else
      let afterPrompt : Except PyErr WFState :=
        if dictContains cfg "prompt" then .ok s
        else
          match env.llm with
          | none => .error .attributeError
          | some llm =>
            match llm.complete elicitPromptText [ev.image.image] with
            | .error e => .error e
            | .ok t => .ok (s.setDict r (dictSet cfg "prompt" (.str t)))
      match afterPrompt with
      | .error e => (.error e, s)
      | .ok s2 =>
        match dictGet (s2.getDict r) "prompt" with
        | none => (.error (.keyError "prompt"), s2)
        | some promptVal =>
          match ev.object_detection_configuration with
          | none => (.error .attributeError, s2)
          | some odc =>
            match detect_bboxes_with_owlv2 env ev.image promptVal
                (detGet odc "confidence" (1/10))
                (detGet odc "nms_threshold" (3/10)) with
            | .error e => (.error e, s2)
            | .ok _bbox_list => (.ok (), s2)

/-- Step create_bboxes: runs the try block; any exception there is
caught and converted into StopEvent(reason="Bounding box creation failed
due to an error.") — the reason keyword only, the result field stays
None.  When the try block succeeds, the return at line 159 constructs
BBoxCreatedEvent(image=..., segmentation_configuration=...) without the
required object_detection_configuration field; that construction sits
outside the try, so the pydantic ValidationError escapes the step — and
the detected regions, bound to a dead local, are dropped either way. -/
def create_bboxes (env : Env) (ev : ImageLoadedEvent) (s : WFState) :
    Except PyErr BBoxOut × WFState :=
  match create_bboxes_try env ev s with
  | (.error _, s2) =>
    (.ok (.stop ⟨none, some "Bounding box creation failed due to an error."⟩),
      s2)
  | (.ok _, s2) => (.error .validationError, s2)

/-- The first loop of _parse_image_node_with_sam2: one predictor.predict
call per bounding box, collected in order; a predictor failure is not
caught and propagates. -/
def predictAll (env : Env) (img : PILImage) :
    List ImageRegion → Except PyErr (List SegMask)
  | [] => .ok []
  | b :: bs => do
    let m ← env.predict img b.x1 b.y1 b.x2 b.y2
    let ms ← predictAll env img bs
    pure (m :: ms)

/-- The masked crop computed for one region in the second loop:
Image.composite(img, Image.new("RGB", img.size), mask) cropped to the
region box. -/
def cropOf (img : PILImage) (ann : SegMask) (bbox : ImageRegion) : PILImage :=
  PILImage.crop (PILImage.composite img (PILImage.blankLike img) ann)
    bbox.x1 bbox.y1 bbox.x2 bbox.y2

/-- The second loop of _parse_image_node_with_sam2 over
zip(annotations, bbox_list): build the chunk ImageNode (JPEG re-encoding
via image_to_base64, mimetype copied from the source node, region box in
metadata, SOURCE set via ref_doc_id, PARENT set to the source node),
append it and emit ImageChunkGenerated; the try/except around the chunk
construction turns an encoding failure into a WorkflowRuntimeError
diagnostic event and a continue. -/
def buildChunks (env : Env) (img : PILImage) (image_node : ImageNode) :
    List (SegMask × ImageRegion) → WFState → List ImageNode × WFState
  | [], s => ([], s)
  | (ann, bbox) :: rest, s =>
    let cropped_image := cropOf img ann bbox
    match image_to_base64 env cropped_image "JPEG" with
    | .error _ =>
      let s2 := s.emit .runtimeError
      buildChunks env img image_node rest s2
    | .ok enc =>
      let f := s.freshId
      let image_chunk : ImageNode :=
        { nodeId := f.1, image := enc, mimetype := image_node.mimetype,
          metadataRegion := some (bbox.x1, bbox.y1, bbox.x2, bbox.y2),
          sourceRel := some (ref_doc_id image_node),
          parentRel := some image_node.asRelatedNodeInfo,
          childRel := [] }
      let s3 := f.2.emit (.chunkGenerated image_chunk)
      let rec2 := buildChunks env img image_node rest s3
      (image_chunk :: rec2.1, rec2.2)

/-- Reading configuration["bbox_list"] as a region list: a missing key is
a KeyError, a non-list value fails the for loop with a TypeError. -/
def regionsOf : Option CVal → Except PyErr (List ImageRegion)
  | none => .error (.keyError "bbox_list")
  | some (.regions rs) => .ok rs
  | some _ => .error .typeError

/-- self._parse_image_node_with_sam2(image_node, configuration): opens
the image, reads sam_settings with .get (AttributeError on the tuple
default), loads the SAM2 predictor from configuration["model_name"]
(KeyError when absent; the model load itself is assumed available),
predicts one mask per entry of configuration["bbox_list"] (KeyError when
absent — nothing ever stores that key for detector output), crops and
encodes each chunk, then appends all chunk references except the first
to the existing CHILD relationship collection of the source node.
Returns the chunk list and the updated source node. -/
def parse_image_node_with_sam2 (env : Env) (image_node : ImageNode)
    (cfgv : SegCfgVal) (s : WFState) :
    Except PyErr (List ImageNode × ImageNode) × WFState :=
  match cfgv with
  | .tuple1 _ => (.error .attributeError, s)
  | .ref r =>
    let img := decodeRGB image_node.image
    let configuration := s.getDict r
    match dictGet configuration "model_name" with
    | none => (.error (.keyError "model_name"), s)
    | some _ =>
      match regionsOf (dictGet configuration "bbox_list") with
      | .error e => (.error e, s)
      | .ok bboxes =>
        match predictAll env img bboxes with
        | .error e => (.error e, s)
        | .ok annotations2 =>
          let bc := buildChunks env img image_node (annotations2.zip bboxes) s
          let children_collection := image_node.childRel
          let image_node2 :=
            { image_node with
              childRel := children_collection ++
                (bc.1.drop 1).map ImageNode.asRelatedNodeInfo }
          (.ok (bc.1, image_node2), bc.2)

/-- Step parse_image: runs _parse_image_node_with_sam2 (exceptions are
not caught and propagate out of the step); an empty chunk list stops the
workflow at once with the payload {source, chunks: []} (no descriptions
key), otherwise the chunks flow on as an ImageParsedEvent. -/
def parse_image (env : Env) (ev : BBoxCreatedEvent) (s : WFState) :
    Except PyErr ParseOut × WFState :=
  match parse_image_node_with_sam2 env ev.image ev.segmentation_configuration s with
  | (.error e, s2) => (.error e, s2)
  | (.ok (parsed, source2), s2) =>
    if parsed.length = 0 then
      (.ok (.stop ⟨some (.payload ⟨source2, [], none⟩), none⟩), s2)
    else
      (.ok (.parsed ⟨source2, parsed⟩), s2)

/-- The captioning loop of describe_image: one complete call per chunk
(counted), a TextNode with SOURCE lineage-resolved against the pipeline
source and PARENT set to the chunk on success, and None appended in
place of the description when the call raises. -/
def describeChunks (llm : LLM) (source : ImageNode) :
    List ImageNode → WFState → List (Option TextNode) × WFState
  | [], s => ([], s)
  | chunk :: rest, s =>
    let s1 := { s with captionCalls := s.captionCalls + 1 }
    match llm.complete describePromptText [chunk.image] with
    | .error _ =>
      let rec2 := describeChunks llm source rest s1
      (none :: rec2.1, rec2.2)
    | .ok t =>
      let tn : TextNode :=
        { text := t, mimetype := "text/plain",
          sourceRel := some (ref_doc_id source),
          parentRel := some chunk.asRelatedNodeInfo }
      let rec2 := describeChunks llm source rest s1
      (some tn :: rec2.1, rec2.2)

/-- Step describe_image: with no multimodal LLM configured the
descriptions list stays empty; otherwise each chunk is captioned in
order.  The result payload always carries the descriptions key. -/
def describe_image (env : Env) (ev : ImageParsedEvent) (s : WFState) :
    StopEvent × WFState :=
  match env.llm with
  | none =>
    (⟨some (.payload ⟨ev.source, ev.chunks, some []⟩), none⟩, s)
  | some llm =>
    let dc := describeChunks llm ev.source ev.chunks s
    (⟨some (.payload ⟨ev.source, ev.chunks, some dc.1⟩), none⟩, dc.2)

/-- The dispatch tail of the driver from a BBoxCreatedEvent: the
event-driven runtime hands any BBoxCreatedEvent to parse_image, and an
ImageParsedEvent to describe_image; a StopEvent terminates the run. -/
def runFromBBoxCreated (env : Env) (be : BBoxCreatedEvent) (s : WFState) :
    Except PyErr StopEvent × WFState :=
  match parse_image env be s with
  | (.error e, s3) => (.error e, s3)
  | (.ok (.stop se), s3) => (.ok se, s3)
  | (.ok (.parsed pe), s3) =>
    let de := describe_image env pe s3
    (.ok de.1, de.2)

/-- The workflow driver: the strict chain load_image, create_bboxes and
the dispatch tail above, each stage consuming the previous stage event,
with StopEvent terminating the run.  An uncaught exception in a step —
including a pydantic ValidationError from an event construction —
surfaces as an error of the run. -/
def runWorkflow (env : Env) (start : StartEvent) (s : WFState) :
    Except PyErr StopEvent × WFState :=
  match load_image env start s with
  | (.error e, s1) => (.error e, s1)
  | (.ok (.stop se), s1) => (.ok se, s1)
  | (.ok (.loaded le), s1) =>
    match create_bboxes env le s1 with
    | (.error e, s2) => (.error e, s2)
    | (.ok (.stop se), s2) => (.ok se, s2)
    | (.ok (.created be), s2) => runFromBBoxCreated env be s2

/-- What Workflow.run hands back to the caller: the result field of the
final StopEvent (None when the field was never set). -/
def runResult (env : Env) (start : StartEvent) (s : WFState) :
    Except PyErr (Option PyResult) :=
  ((runWorkflow env start s).1).map StopEvent.result

/-! Concrete fixtures for evaluating the workflow on explicit inputs. -/

/-- An LLM that answers every completion with a fixed two-line prompt
list. -/
def llmOK : LLM := ⟨fun _ _ => .ok "chair\ntable"⟩

/-- An LLM whose completion call always raises. -/
def llmFails : LLM := ⟨fun _ _ => .error (.exn "llm boom")⟩

/-- An LLM that raises exactly on images cropped at x1 = 0 and captions
everything else. -/
def llmSelective : LLM :=
  ⟨fun _ imgs =>
    if imgs.any (fun e =>
        match e.pix with
        | .crop _ 0 _ _ _ => true
        | _ => false)
    then .error (.exn "caption boom") else .ok "a small object"⟩

def regionA : ImageRegion := ⟨10, 10, 50, 50, "chair", 9/10⟩
def regionB : ImageRegion := ⟨0, 0, 20, 30, "table", 8/10⟩

/-- A healthy environment: detector finds one region, segmentation and
encoding always succeed. -/
def envOK : Env :=
  { llm := some llmOK,
    owlDetect := fun _ _ _ _ => .ok [regionA],
    predict := fun _ x1 _ _ _ => .ok x1.toNat,
    encodeFail := fun _ _ => false }

/-- Like envOK but the multimodal LLM raises. -/
def envLLMFails : Env := { envOK with llm := some llmFails }

/-- Like envOK but the SAM2 predictor raises. -/
def envPredictFails : Env :=
  { envOK with predict := fun _ _ _ _ _ => .error (.exn "sam2 boom") }

/-- Like envOK but every PIL save (encode) raises. -/
def envEncodeFails : Env := { envOK with encodeFail := fun _ _ => true }

/-- Like envOK but captioning raises on crops at x1 = 0. -/
def envSelective : Env := { envOK with llm := some llmSelective }

/-- A prebuilt PNG root artifact with a recorded source document and one
pre-existing child reference. -/
def rootPng : ImageNode :=
  { nodeId := 100, image := ⟨.source 7, "PNG"⟩, mimetype := "image/png",
    metadataRegion := none, sourceRel := some ⟨55⟩, parentRel := none,
    childRel := [⟨77⟩] }

/-- A segmentation configuration carrying a model name and an explicit
region list. -/
def cfgFull : SegConfig :=
  [("model_name", .str "facebook/sam2-hiera-small"),
   ("bbox_list", .regions [regionA, regionB])]

/-- A segmentation configuration carrying a model name and a prompt but
no region list. -/
def cfgPromptOnly : SegConfig :=
  [("model_name", .str "facebook/sam2-hiera-small"), ("prompt", .str "chair")]

/-- A segmentation configuration carrying only a model name. -/
def cfgModelOnly : SegConfig :=
  [("model_name", .str "facebook/sam2-hiera-small")]

/-- A segmentation configuration carrying only a region list. -/
def cfgOnlyBbox : SegConfig := [("bbox_list", .regions [regionA])]

/-- An initial workflow state whose store holds exactly the caller's
configuration dict at reference 0. -/
def stWith (c : SegConfig) : WFState :=
  { store := [c], nextId := 0, emitted := [], captionCalls := 0 }

/-- The image file format an image mimetype declares (JPEG mimetypes map
to the JPEG encoder format, and so on). -/
def formatOfMimetype (m : String) : Option String :=
  if m == "image/jpeg" || m == "image/jpg" then some "JPEG"
  else if m == "image/png" then some "PNG"
  else if m == "image/gif" then some "GIF"
  else if m == "image/webp" then some "WEBP"
  else none

/-- Number of WorkflowRuntimeError diagnostics in an emission log. -/
def countRuntimeErrors (l : List Emitted) : Nat :=
  (l.filter (fun e => e == Emitted.runtimeError)).length

/-- A start event giving a file path and the caller's configuration. -/
def startPath : StartEvent :=
  { image_path := some "images/diablo_menu.png",
    segmentation_configuration := some 0 }

/-- A start event giving the prebuilt PNG artifact and the caller's
configuration. -/
def startPrebuilt : StartEvent :=
  { image := some rootPng, segmentation_configuration := some 0 }

/-- Stage 1 output for the path input with the prompt-carrying
configuration (fixture for the C1 evaluation). -/
def c1Pair : Except PyErr LoadOut × WFState :=
  load_image envOK startPath (stWith cfgPromptOnly)

def c1Loaded : ImageLoadedEvent :=
  match c1Pair.1 with
  | .ok (.loaded le) => le
  | _ => ⟨rootPng, .tuple1 [], none⟩

/-- Stage 1 output for the path input with the model-only configuration
(fixture for the C9 evaluation). -/
def c9Pair : Except PyErr LoadOut × WFState :=
  load_image envOK startPath (stWith cfgModelOnly)

def c9Loaded : ImageLoadedEvent :=
  match c9Pair.1 with
  | .ok (.loaded le) => le
  | _ => ⟨rootPng, .tuple1 [], none⟩

/-- The root document the image_path branch of load_image builds for
startPath given a fresh id supply starting at 0 (fixture for the C7
evaluation). -/
def docPath : ImageNode :=
  { nodeId := 0, image := ⟨.file "images/diablo_menu.png", "JPEG"⟩,
    mimetype := "image/jpg", metadataRegion := none, sourceRel := none,
    parentRel := none, childRel := [] }

/-- A well-formed BBoxCreatedEvent built directly (the workflow itself
cannot complete one — see create_bboxes), carrying the PNG root and the
caller's configuration reference (fixture for the stage-3 level C5
witness and C8 counterexample). -/
def beW : BBoxCreatedEvent := ⟨rootPng, .ref 0, none⟩

/-- A successful stage 3 on the PNG root with two regions (fixture for
the C3, C6 and C10 witnesses). -/
def parseW : Except PyErr (List ImageNode × ImageNode) × WFState :=
  parse_image_node_with_sam2 envOK rootPng (.ref 0) (stWith cfgFull)

def chunksW : List ImageNode :=
  match parseW.1 with
  | .ok (cs, _) => cs
  | _ => []

def rootW : ImageNode :=
  match parseW.1 with
  | .ok (_, n) => n
  | _ => rootPng

def chunkW0 : ImageNode := chunksW.headD rootPng

/-- Two prebuilt chunk artifacts, the second cropped at x1 = 0 so that
llmSelective fails on it (fixture for the C4 witness). -/
def chunkA : ImageNode :=
  { nodeId := 1, image := ⟨.crop (.source 7) 10 10 50 50, "JPEG"⟩,
    mimetype := "image/png", metadataRegion := some (10, 10, 50, 50),
    sourceRel := some ⟨55⟩, parentRel := some ⟨100⟩, childRel := [] }

def chunkB : ImageNode :=
  { nodeId := 2, image := ⟨.crop (.source 7) 0 0 20 30, "JPEG"⟩,
    mimetype := "image/png", metadataRegion := some (0, 0, 20, 30),
    sourceRel := some ⟨55⟩, parentRel := some ⟨100⟩, childRel := [] }

def evParsedW : ImageParsedEvent := ⟨rootPng, [chunkA, chunkB]⟩

/-! Supporting lemmas. -/

theorem dictGet_dictSet_self (d : SegConfig) (k : String) (v : CVal) :
    dictGet (dictSet d k v) k = some v := by
  induction d with
  | nil => simp [dictSet, dictGet]
  | cons p rest ih =>
    by_cases hp : p.1 == k
    · simp [dictSet, hp, dictGet, List.find?_cons_of_pos]
    · rw [dictSet]
      simp only [hp, Bool.false_eq_true, if_false]
      rw [dictGet, List.find?_cons_of_neg]
      · exact ih
      · exact hp

theorem getDict_alloc_self (s : WFState) (d : SegConfig) :
    ((s.alloc d).2).getDict s.store.length = d := by
  simp [WFState.alloc, WFState.getDict, List.getD_append_right]

theorem getDict_alloc_lt (s : WFState) (d : SegConfig) (q : Nat)
    (hq : q < s.store.length) :
    ((s.alloc d).2).getDict q = s.getDict q := by
  simp [WFState.alloc, WFState.getDict, List.getD, List.getElem?_append, hq]

theorem getDict_setDict_self (s : WFState) (r : Nat) (d : SegConfig)
    (hr : r < s.store.length) :
    (s.setDict r d).getDict r = d := by
  simp [WFState.setDict, WFState.getDict, List.getD, List.getElem?_set_self, hr]

theorem getDict_setDict_ne (s : WFState) (r q : Nat) (d : SegConfig)
    (hq : q ≠ r) :
    (s.setDict r d).getDict q = s.getDict q := by
  simp [WFState.setDict, WFState.getDict, List.getD,
    List.getElem?_set_ne (by omega : r ≠ q)]

theorem validateSegCfgField_captionCalls (s : WFState) (v : SegCfgVal) :
    ((validateSegCfgField s v).2).captionCalls = s.captionCalls := by
  cases v <;> simp [validateSegCfgField, WFState.alloc]

theorem load_image_captionCalls (env : Env) (start : StartEvent) (s : WFState) :
    ((load_image env start s).2).captionCalls = s.captionCalls := by
  rw [load_image]
  dsimp only
  repeat' split
  all_goals rfl

theorem create_bboxes_try_captionCalls (env : Env) (ev : ImageLoadedEvent)
    (s : WFState) :
    ((create_bboxes_try env ev s).2).captionCalls = s.captionCalls := by
  rw [create_bboxes_try]
  dsimp only
  split
  · repeat' split
    all_goals rfl
  · split
    · rfl
    · split
      · rfl
      · rename_i s2 heq
        have hs2 : s2.captionCalls = s.captionCalls := by
          split at heq
          · injection heq with h
            rw [← h]
          · split at heq
            · exact absurd heq (by simp)
            · split at heq
              · exact absurd heq (by simp)
              · injection heq with h
                rw [← h]
                rfl
        repeat' split
        all_goals exact hs2

theorem create_bboxes_captionCalls (env : Env) (ev : ImageLoadedEvent)
    (s : WFState) :
    ((create_bboxes env ev s).2).captionCalls = s.captionCalls := by
  rw [create_bboxes]
  split
  · rename_i heq
    have h := create_bboxes_try_captionCalls env ev s
    rw [heq] at h
    exact h
  · rename_i heq
    have h := create_bboxes_try_captionCalls env ev s
    rw [heq] at h
    exact h

theorem buildChunks_captionCalls (env : Env) (img : PILImage)
    (node : ImageNode) (pairs : List (SegMask × ImageRegion)) :
    ∀ s, ((buildChunks env img node pairs s).2).captionCalls = s.captionCalls := by
  induction pairs with
  | nil => intro s; rfl
  | cons pr rest ih =>
    intro s
    obtain ⟨ann, bbox⟩ := pr
    rw [buildChunks]
    dsimp only
    split
    · exact ih _
    · exact ih _

theorem parse_node_captionCalls (env : Env) (node : ImageNode)
    (cfgv : SegCfgVal) (s : WFState) :
    ((parse_image_node_with_sam2 env node cfgv s).2).captionCalls = s.captionCalls := by
  rw [parse_image_node_with_sam2.eq_def]
  dsimp only
  repeat' split
  all_goals first
    | rfl
    | exact buildChunks_captionCalls _ _ _ _ _

theorem parse_image_captionCalls (env : Env) (ev : BBoxCreatedEvent)
    (s : WFState) :
    ((parse_image env ev s).2).captionCalls = s.captionCalls := by
  rw [parse_image]
  split
  · rename_i heq
    have h := parse_node_captionCalls env ev.image ev.segmentation_configuration s
    rw [heq] at h
    exact h
  · rename_i heq
    have h := parse_node_captionCalls env ev.image ev.segmentation_configuration s
    rw [heq] at h
    split <;> exact h

theorem describeChunks_length (llm : LLM) (source : ImageNode)
    (chunks : List ImageNode) :
    ∀ s, ((describeChunks llm source chunks s).1).length = chunks.length := by
  induction chunks with
  | nil => intro s; rfl
  | cons c rest ih =>
    intro s
    rw [describeChunks]
    dsimp only
    split
    · simp [ih]
    · simp [ih]

theorem describeChunks_get (llm : LLM) (source : ImageNode)
    (chunks : List ImageNode) :
    ∀ (s : WFState) (i : Nat) (c : ImageNode), chunks[i]? = some c →
      ((∀ e, llm.complete describePromptText [c.image] = .error e →
          ((describeChunks llm source chunks s).1)[i]? = some none) ∧
       (∀ t, llm.complete describePromptText [c.image] = .ok t →
          ((describeChunks llm source chunks s).1)[i]? =
            some (some ⟨t, "text/plain", some (ref_doc_id source),
                        some c.asRelatedNodeInfo⟩))) := by
  induction chunks with
  | nil => intro s i c h; simp at h
  | cons hd rest ih =>
    intro s i c h
    cases i with
    | zero =>
      simp at h
      subst h
      refine ⟨fun e he => ?_, fun t ht => ?_⟩
      · rw [describeChunks]
        dsimp only
        rw [he]
        simp
      · rw [describeChunks]
        dsimp only
        rw [ht]
        simp
    | succ j =>
      simp only [List.getElem?_cons_succ] at h
      rw [describeChunks]
      dsimp only
      split
      · simpa using ih _ j c h
      · simpa using ih _ j c h

theorem buildChunks_mem_fields (env : Env) (img : PILImage)
    (node : ImageNode) (pairs : List (SegMask × ImageRegion)) :
    ∀ s, ∀ c ∈ (buildChunks env img node pairs s).1,
      c.parentRel = some node.asRelatedNodeInfo ∧
      c.sourceRel = some (ref_doc_id node) ∧
      c.mimetype = node.mimetype ∧
      c.image.format = "JPEG" := by
  induction pairs with
  | nil => intro s c hc; simp [buildChunks] at hc
  | cons pr rest ih =>
    intro s c hc
    obtain ⟨ann, bbox⟩ := pr
    rw [buildChunks] at hc
    dsimp only at hc
    revert hc
    split
    · intro hc
      exact ih _ c hc
    · rename_i enc heq
      intro hc
      rcases List.mem_cons.mp hc with h | h
      · subst h
        refine ⟨rfl, rfl, rfl, ?_⟩
        have henc : enc = ⟨cropOf img ann bbox, "JPEG"⟩ := by
          rw [image_to_base64] at heq
          split at heq
          · cases heq
          · injection heq with h2
            exact h2.symm
        rw [henc]
      · exact ih _ c h

theorem parse_node_success_shape (env : Env) (node : ImageNode)
    (cfgv : SegCfgVal) (s : WFState) (chunks : List ImageNode)
    (node2 : ImageNode) (s2 : WFState)
    (h : parse_image_node_with_sam2 env node cfgv s = (.ok (chunks, node2), s2)) :
    (∃ pairs, chunks = (buildChunks env (decodeRGB node.image) node pairs s).1) ∧
    node2 = { node with childRel := node.childRel ++
      (chunks.drop 1).map ImageNode.asRelatedNodeInfo } := by
  rw [parse_image_node_with_sam2.eq_def] at h
  dsimp only at h
  split at h
  · simp at h
  · split at h
    · simp at h
    · split at h
      · simp at h
      · split at h
        · simp at h
        · rw [Prod.mk.injEq] at h
          obtain ⟨h1, _⟩ := h
          rw [Except.ok.injEq, Prod.mk.injEq] at h1
          obtain ⟨hc, hn⟩ := h1
          subst hc
          exact ⟨⟨_, rfl⟩, hn.symm⟩

theorem countRuntimeErrors_append (l l2 : List Emitted) :
    countRuntimeErrors (l ++ l2) =
      countRuntimeErrors l + countRuntimeErrors l2 := by
  simp [countRuntimeErrors, List.filter_append]

theorem buildChunks_filter_shape (env : Env) (img : PILImage)
    (node : ImageNode) (pairs : List (SegMask × ImageRegion)) :
    ∀ s,
      ((buildChunks env img node pairs s).1).map (fun c => c.metadataRegion) =
        (pairs.filter
            (fun pr => !env.encodeFail (cropOf img pr.1 pr.2) "JPEG")).map
          (fun pr => some (pr.2.x1, pr.2.y1, pr.2.x2, pr.2.y2)) ∧
      countRuntimeErrors ((buildChunks env img node pairs s).2).emitted =
        countRuntimeErrors s.emitted +
          (pairs.filter
              (fun pr => env.encodeFail (cropOf img pr.1 pr.2) "JPEG")).length := by
  induction pairs with
  | nil => intro s; simp [buildChunks]
  | cons pr rest ih =>
    intro s
    obtain ⟨ann, bbox⟩ := pr
    rw [buildChunks]
    dsimp only
    rcases hE : env.encodeFail (cropOf img ann bbox) "JPEG" with _ | _
    · rw [image_to_base64, if_neg (by simp [hE])]
      constructor
      · simpa [List.filter_cons, hE] using (ih _).1
      · simp only [List.filter_cons, hE]
        rw [(ih _).2]
        simp [WFState.emit, WFState.freshId, countRuntimeErrors_append,
          countRuntimeErrors]
    · rw [image_to_base64, if_pos hE]
      constructor
      · simpa [List.filter_cons, hE] using (ih _).1
      · simp only [List.filter_cons, hE]
        rw [(ih _).2]
        simp [WFState.emit, countRuntimeErrors_append, countRuntimeErrors]
        omega

theorem load_image_stop_shape (env : Env) (start : StartEvent) (s : WFState)
    (se : StopEvent) (s2 : WFState)
    (h : load_image env start s = (.ok (.stop se), s2)) :
    se = ⟨none, none⟩ := by
  rw [load_image] at h
  dsimp only at h
  repeat' split at h
  all_goals simp_all

theorem create_bboxes_stop_shape (env : Env) (ev : ImageLoadedEvent)
    (s : WFState) (se : StopEvent) (s2 : WFState)
    (h : create_bboxes env ev s = (.ok (.stop se), s2)) :
    se = ⟨none, some "Bounding box creation failed due to an error."⟩ := by
  rw [create_bboxes] at h
  split at h <;> simp_all

theorem parse_image_stop_shape (env : Env) (ev : BBoxCreatedEvent)
    (s : WFState) (se : StopEvent) (s2 : WFState)
    (h : parse_image env ev s = (.ok (.stop se), s2)) :
    ∃ src, se = ⟨some (.payload ⟨src, [], none⟩), none⟩ := by
  rw [parse_image] at h
  split at h
  · simp at h
  · split at h
    · rw [Prod.mk.injEq] at h
      obtain ⟨h1, _⟩ := h
      injection h1 with h1
      injection h1 with h1
      exact ⟨_, h1.symm⟩
    · simp at h

theorem parse_image_parsed_shape (env : Env) (ev : BBoxCreatedEvent)
    (s : WFState) (pe : ImageParsedEvent) (s2 : WFState)
    (h : parse_image env ev s = (.ok (.parsed pe), s2)) :
    pe.chunks ≠ [] := by
  rw [parse_image] at h
  split at h
  · simp at h
  · split at h
    · simp at h
    · rename_i parsed source2 s3 heq hlen
      rw [Prod.mk.injEq] at h
      obtain ⟨h1, _⟩ := h
      injection h1 with h1
      injection h1 with h1
      rw [← h1]
      intro hnil
      exact hlen (by simpa using hnil)

theorem describe_image_result_shape (env : Env) (ev : ImageParsedEvent)
    (s : WFState) :
    ∃ ds, ((describe_image env ev s).1).result =
      some (.payload ⟨ev.source, ev.chunks, some ds⟩) := by
  rw [describe_image]
  dsimp only
  split
  · exact ⟨[], rfl⟩
  · exact ⟨_, rfl⟩

/-! Claim theorems. -/

/-- C1: the claim states that on runs without a pre-supplied bbox_list
the region list produced by the Detection Provider in stage 2 is the
region list stage 3 iterates over.  In the code the detected list is
bound to a dead local of create_bboxes and never stored: on a concrete
path-input run, the try block of stage 2 succeeds — the detector is
invoked and returns a nonempty region list — yet afterwards no stored
configuration contains a bbox_list key, so the stage-3 read of that key
could only raise KeyError("bbox_list"); and the stage-2 return itself
raises ValidationError for the missing required event field, so the run
crashes in stage 2 and stage 3 never receives any region list. -/
theorem C1_detect_output_dropped_breaks_stage3 :
    envOK.owlDetect (decodeRGB c1Loaded.image.image) ["chair"] (1/10) (3/10)
        = .ok [regionA] ∧
    (create_bboxes_try envOK c1Loaded c1Pair.2).1 = .ok () ∧
    dictContains (((create_bboxes_try envOK c1Loaded c1Pair.2).2).getDict 0)
      "bbox_list" = false ∧
    dictContains (((create_bboxes_try envOK c1Loaded c1Pair.2).2).getDict 1)
      "bbox_list" = false ∧
    regionsOf (dictGet
        (((create_bboxes_try envOK c1Loaded c1Pair.2).2).getDict 1)
        "bbox_list") = .error (.keyError "bbox_list") ∧
    (create_bboxes envOK c1Loaded c1Pair.2).1 = .error .validationError ∧
    (runWorkflow envOK startPath (stWith cfgPromptOnly)).1 =
      .error .validationError :=
  ⟨rfl, by rfl, by decide, by decide, by rfl, by rfl, by rfl⟩

/-- C2: the claim states that when the Detection Provider or its
prompt-elicitation prerequisite raises, run returns a terminal
failure-reason string result.  The code catches the exception but builds
StopEvent(reason=...), leaving the result field at None: on a concrete
run whose prompt elicitation raises, the final stop event carries the
stable reason string only in its reason field, and what run returns
(the result field) is None — not a string, and in particular a result
without chunks or descriptions. -/
theorem C2_failure_reason_in_reason_field_result_is_none :
    (runWorkflow envLLMFails startPath (stWith [])).1 =
      .ok ⟨none, some "Bounding box creation failed due to an error."⟩ ∧
    runResult envLLMFails startPath (stWith []) = .ok none :=
  ⟨by rfl, by rfl⟩

/-- C3: every chunk artifact produced by the segment-and-crop stage has
its PARENT relationship set to the root image node it was cropped from
and its SOURCE relationship set by the lineage rule ref_doc_id: the
root's own recorded source when present, else the root itself. -/
theorem C3_chunk_parent_and_source_lineage (env : Env) (node : ImageNode)
    (cfgv : SegCfgVal) (s : WFState) (chunks : List ImageNode)
    (node2 : ImageNode) (s2 : WFState)
    (h : parse_image_node_with_sam2 env node cfgv s = (.ok (chunks, node2), s2)) :
    ∀ c ∈ chunks,
      c.parentRel = some node.asRelatedNodeInfo ∧
      c.sourceRel = some (ref_doc_id node) ∧
      ref_doc_id node = (match node.sourceRel with
        | some src => src
        | none => node.asRelatedNodeInfo) := by
  obtain ⟨⟨pairs, hchunks⟩, _⟩ :=
    parse_node_success_shape env node cfgv s chunks node2 s2 h
  intro c hc
  rw [hchunks] at hc
  obtain ⟨h1, h2, _, _⟩ :=
    buildChunks_mem_fields env (decodeRGB node.image) node pairs s c hc
  refine ⟨h1, h2, ?_⟩
  cases hs : node.sourceRel <;> simp [ref_doc_id, hs]

/-- Witness for C3 at the concrete two-region parse. -/
theorem C3_witness :
    chunkW0.parentRel = some rootPng.asRelatedNodeInfo ∧
    chunkW0.sourceRel = some (ref_doc_id rootPng) ∧
    ref_doc_id rootPng = (match rootPng.sourceRel with
      | some src => src
      | none => rootPng.asRelatedNodeInfo) :=
  C3_chunk_parent_and_source_lineage envOK rootPng (.ref 0) (stWith cfgFull)
    chunksW rootW parseW.2 (by rfl) chunkW0 (by decide)

/-- C6: after stage 3 processes all regions, the root artifact's CHILD
relationship collection is its previous collection with exactly the
references of all chunks except the first appended, in production
order. -/
theorem C6_children_append_all_but_first (env : Env) (node : ImageNode)
    (cfgv : SegCfgVal) (s : WFState) (chunks : List ImageNode)
    (node2 : ImageNode) (s2 : WFState)
    (h : parse_image_node_with_sam2 env node cfgv s = (.ok (chunks, node2), s2)) :
    node2.childRel = node.childRel ++
      (chunks.drop 1).map ImageNode.asRelatedNodeInfo := by
  obtain ⟨_, hn⟩ := parse_node_success_shape env node cfgv s chunks node2 s2 h
  rw [hn]

/-- Witness for C6 at the concrete two-region parse. -/
theorem C6_witness :
    rootW.childRel = rootPng.childRel ++
      (chunksW.drop 1).map ImageNode.asRelatedNodeInfo :=
  C6_children_append_all_but_first envOK rootPng (.ref 0) (stWith cfgFull)
    chunksW rootW parseW.2 (by rfl)

/-- C10: every chunk produced by stage 3 is re-encoded with the JPEG
encoder while its declared mimetype is copied verbatim from the source
node, so whenever the source mimetype does not declare JPEG the chunk's
declared mimetype disagrees with its actual content encoding. -/
theorem C10_chunks_jpeg_but_mimetype_copied (env : Env) (node : ImageNode)
    (cfgv : SegCfgVal) (s : WFState) (chunks : List ImageNode)
    (node2 : ImageNode) (s2 : WFState)
    (h : parse_image_node_with_sam2 env node cfgv s = (.ok (chunks, node2), s2)) :
    ∀ c ∈ chunks,
      c.image.format = "JPEG" ∧
      c.mimetype = node.mimetype ∧
      (formatOfMimetype node.mimetype ≠ some "JPEG" →
        formatOfMimetype c.mimetype ≠ some c.image.format) := by
  obtain ⟨⟨pairs, hchunks⟩, _⟩ :=
    parse_node_success_shape env node cfgv s chunks node2 s2 h
  intro c hc
  rw [hchunks] at hc
  obtain ⟨_, _, h3, h4⟩ :=
    buildChunks_mem_fields env (decodeRGB node.image) node pairs s c hc
  refine ⟨h4, h3, fun hne => ?_⟩
  rw [h3, h4]
  exact hne

/-- Witness for C10 at the concrete parse of a PNG root. -/
theorem C10_witness :
    chunkW0.image.format = "JPEG" ∧
    chunkW0.mimetype = rootPng.mimetype ∧
    (formatOfMimetype rootPng.mimetype ≠ some "JPEG" →
      formatOfMimetype chunkW0.mimetype ≠ some chunkW0.image.format) :=
  C10_chunks_jpeg_but_mimetype_copied envOK rootPng (.ref 0) (stWith cfgFull)
    chunksW rootW parseW.2 (by rfl) chunkW0 (by decide)

/-- C4: whenever describe_image runs with a captioning provider
configured, the descriptions list has exactly the length of the chunk
list and is positionally aligned: position i holds None exactly when the
captioning call for chunk i raised, and the description node otherwise,
so no single captioning failure aborts or shifts the remaining chunks. -/
theorem C4_descriptions_positionally_aligned (env : Env) (llm : LLM)
    (ev : ImageParsedEvent) (s : WFState) (h : env.llm = some llm) :
    (describe_image env ev s).1 =
      ⟨some (.payload ⟨ev.source, ev.chunks,
        some (describeChunks llm ev.source ev.chunks s).1⟩), none⟩ ∧
    ((describeChunks llm ev.source ev.chunks s).1).length = ev.chunks.length ∧
    (∀ (i : Nat) (c : ImageNode), ev.chunks[i]? = some c →
      (∀ e, llm.complete describePromptText [c.image] = .error e →
        ((describeChunks llm ev.source ev.chunks s).1)[i]? = some none) ∧
      (∀ t, llm.complete describePromptText [c.image] = .ok t →
        ((describeChunks llm ev.source ev.chunks s).1)[i]? =
          some (some ⟨t, "text/plain", some (ref_doc_id ev.source),
                      some c.asRelatedNodeInfo⟩))) := by
  refine ⟨?_, describeChunks_length llm ev.source ev.chunks s,
    fun i c hic => describeChunks_get llm ev.source ev.chunks s i c hic⟩
  rw [describe_image, h]

/-- Witness for C4: two chunks, captioning fails on the second only;
the descriptions list still has length two and holds None at index 1. -/
theorem C4_witness :
    ((describeChunks llmSelective evParsedW.source evParsedW.chunks
        (stWith [])).1).length = evParsedW.chunks.length ∧
    ((describeChunks llmSelective evParsedW.source evParsedW.chunks
        (stWith [])).1)[1]? = some none :=
  ⟨(C4_descriptions_positionally_aligned envSelective llmSelective evParsedW
      (stWith []) rfl).2.1,
   ((C4_descriptions_positionally_aligned envSelective llmSelective evParsedW
      (stWith []) rfl).2.2 1 chunkB (by decide)).1 (.exn "caption boom")
      (by rfl)⟩

/-- C5: whenever the parse step produces a StopEvent — stage 3 yielded
zero chunk artifacts — that event carries exactly the payload
{source, chunks: []} with no descriptions key, and the driver tail
dispatching from the BBoxCreatedEvent terminates with it immediately:
describe_image is never invoked, so the captioning call counter is
unchanged. -/
theorem C5_empty_parse_short_circuits (env : Env) (be : BBoxCreatedEvent)
    (s : WFState) (se : StopEvent) (s2 : WFState)
    (h : parse_image env be s = (.ok (.stop se), s2)) :
    (∃ src, se = ⟨some (.payload ⟨src, [], none⟩), none⟩) ∧
    runFromBBoxCreated env be s = (.ok se, s2) ∧
    s2.captionCalls = s.captionCalls := by
  refine ⟨parse_image_stop_shape env be s se s2 h, ?_, ?_⟩
  · rw [runFromBBoxCreated, h]
  · have hp := parse_image_captionCalls env be s
    rw [h] at hp
    exact hp

/-- Witness for C5: a stage-3 execution in which every chunk fails to
encode yields zero chunks; the dispatch stops with the bare payload and
the captioning call counter stays zero. -/
theorem C5_witness :
    runFromBBoxCreated envEncodeFails beW (stWith cfgFull) =
      (.ok ⟨some (.payload ⟨rootPng, [], none⟩), none⟩,
        (parse_image envEncodeFails beW (stWith cfgFull)).2) ∧
    ((parse_image envEncodeFails beW (stWith cfgFull)).2).captionCalls =
      (stWith cfgFull).captionCalls :=
  ⟨(C5_empty_parse_short_circuits envEncodeFails beW (stWith cfgFull)
      ⟨some (.payload ⟨rootPng, [], none⟩), none⟩
      (parse_image envEncodeFails beW (stWith cfgFull)).2 (by rfl)).2.1,
   (C5_empty_parse_short_circuits envEncodeFails beW (stWith cfgFull)
      ⟨some (.payload ⟨rootPng, [], none⟩), none⟩
      (parse_image envEncodeFails beW (stWith cfgFull)).2 (by rfl)).2.2⟩

/-- C7 counterexample: the claim says caller-supplied configuration is
merged over the documented defaults at stage 1 for every input form,
with the default detection configuration available to the detect stage.
On the prebuilt-image form the event construction raises (the required
object_detection_configuration field is omitted), so no configuration —
default or otherwise — is carried at all; and on the path form, which
does load, the event carries exactly the caller's dict: a configuration
holding only bbox_list lacks the default's model_name key, so unspecified
keys did not keep their default values. -/
theorem C7_counterexample :
    (load_image envOK startPrebuilt (stWith cfgOnlyBbox)).1 =
      .error .validationError ∧
    (load_image envOK startPath (stWith cfgOnlyBbox)).1 =
      .ok (.loaded ⟨docPath, .ref 1, some objectDetectionConfigurationDefault⟩) ∧
    ((load_image envOK startPath (stWith cfgOnlyBbox)).2).getDict 1 =
      cfgOnlyBbox ∧
    dictContains cfgOnlyBbox "model_name" = false ∧
    dictContains defaultPredictorDict "model_name" = true :=
  ⟨by rfl, by rfl, by rfl, by decide, by decide⟩

/-- C7 amended: stage 1 does not merge configurations.  A loaded event
arises only on the image_path input form; it carries the caller's
segmentation dict content exactly (a validated copy — no keys are filled
in from the defaults) together with the default detection configuration
(confidence 0.1, NMS 0.3).  On the prebuilt-image and base64 forms the
ImageLoadedEvent construction omits the required
object_detection_configuration field, so validation raises and the run
crashes at stage 1 instead of carrying any detection configuration. -/
theorem C7_amended_wholesale_replacement (env : Env) (start : StartEvent)
    (s : WFState) (r : Nat) (ev : ImageLoadedEvent) (s2 : WFState)
    (hseg : start.segmentation_configuration = some r)
    (h : load_image env start s = (.ok (.loaded ev), s2)) :
    (∃ r2, ev.segmentation_configuration = .ref r2 ∧
      s2.getDict r2 = s.getDict r) ∧
    ev.object_detection_configuration =
      some objectDetectionConfigurationDefault ∧
    start.image = none ∧ start.base64_image = none := by
  rw [load_image, hseg] at h
  dsimp only at h
  split at h
  · simp at h
  · rename_i heqi
    split at h
    · split at h <;> simp at h
    · rename_i heqb
      split at h
      · split at h
        · simp at h
        · rw [Prod.mk.injEq] at h
          obtain ⟨h1, h2⟩ := h
          injection h1 with h1
          injection h1 with h1
          rw [← h1, ← h2]
          exact ⟨⟨s.store.length, rfl, getDict_alloc_self _ _⟩, rfl, heqi, heqb⟩
      · simp at h

/-- Witness for the amended C7 at the concrete path-form input. -/
theorem C7_witness :
    (⟨docPath, SegCfgVal.ref 1, some objectDetectionConfigurationDefault⟩ :
        ImageLoadedEvent).object_detection_configuration =
      some objectDetectionConfigurationDefault ∧
    startPath.image = none :=
  ⟨(C7_amended_wholesale_replacement envOK startPath (stWith cfgOnlyBbox) 0
      ⟨docPath, SegCfgVal.ref 1, some objectDetectionConfigurationDefault⟩
      ((load_image envOK startPath (stWith cfgOnlyBbox)).2)
      (by rfl) (by rfl)).2.1,
   (C7_amended_wholesale_replacement envOK startPath (stWith cfgOnlyBbox) 0
      ⟨docPath, SegCfgVal.ref 1, some objectDetectionConfigurationDefault⟩
      ((load_image envOK startPath (stWith cfgOnlyBbox)).2)
      (by rfl) (by rfl)).2.2.1⟩

/-- C8 counterexample: the claim says a failure in a region's mask, crop
or encode step is local to that region and never aborts the stage or
escapes to the caller.  The try/except of stage 3 covers only the encode
step: on a stage-3 execution whose SAM2 predict call (the mask step)
raises for the first region, the exception escapes both
_parse_image_node_with_sam2 and the parse_image step uncaught — the
stage aborts with no chunk produced, no diagnostic event emitted and no
remaining region processed. -/
theorem C8_counterexample :
    parse_image_node_with_sam2 envPredictFails rootPng (.ref 0)
        (stWith cfgFull) = (.error (.exn "sam2 boom"), stWith cfgFull) ∧
    parse_image envPredictFails beW (stWith cfgFull) =
      (.error (.exn "sam2 boom"), stWith cfgFull) :=
  ⟨by rfl, by rfl⟩

/-- C8 amended: in the per-region loop of stage 3, a failure of the
encode step (the only step inside the try) is local — the chunk list
consists of exactly the regions whose encode succeeded, in production
order, and one WorkflowRuntimeError diagnostic is emitted per failed
region — while mask-step failures (shown by the counterexample) are
raised out of the stage uncaught. -/
theorem C8_amended_encode_failures_local (env : Env) (img : PILImage)
    (node : ImageNode) (pairs : List (SegMask × ImageRegion)) (s : WFState) :
    ((buildChunks env img node pairs s).1).map (fun c => c.metadataRegion) =
      (pairs.filter
          (fun pr => !env.encodeFail (cropOf img pr.1 pr.2) "JPEG")).map
        (fun pr => some (pr.2.x1, pr.2.y1, pr.2.x2, pr.2.y2)) ∧
    countRuntimeErrors ((buildChunks env img node pairs s).2).emitted =
      countRuntimeErrors s.emitted +
        (pairs.filter
            (fun pr => env.encodeFail (cropOf img pr.1 pr.2) "JPEG")).length :=
  buildChunks_filter_shape env img node pairs s

/-- C9 counterexample: the claim says the elicited prompt is written
into the very configuration dict the caller supplied, which carries it
after the run.  On a concrete path-input run the prompt is elicited and
written, the detector runs, and the run then crashes at the stage-2
return (missing required event field); afterwards the caller's dict
(store slot 0) still carries no prompt — the prompt sits only in the
validated copy the loaded event carried (slot 1). -/
theorem C9_counterexample :
    (runWorkflow envOK startPath (stWith cfgModelOnly)).1 =
      .error .validationError ∧
    dictContains
      (((runWorkflow envOK startPath (stWith cfgModelOnly)).2).getDict 0)
      "prompt" = false ∧
    dictContains
      (((runWorkflow envOK startPath (stWith cfgModelOnly)).2).getDict 1)
      "prompt" = true :=
  ⟨by rfl, by decide, by decide⟩

/-- C9 amended: stage 2 writes the elicited prompt in place into the
segmentation configuration dict carried by the loaded event (appending
the prompt key) — where the detect call then reads it — and mutates no
other stored dict: in particular the caller's own dict, which event
validation copied away from, is left unchanged, whatever the further
outcome of the stage (detect failure, the caught exceptions, or the
ValidationError at the stage-2 return). -/
theorem C9_amended_prompt_written_to_event_copy (env : Env)
    (ev : ImageLoadedEvent) (s : WFState) (r : Nat) (llm : LLM) (t : String)
    (h1 : ev.segmentation_configuration = .ref r)
    (hr : r < s.store.length)
    (h2 : dictContains (s.getDict r) "bbox_list" = false)
    (h3 : dictContains (s.getDict r) "prompt" = false)
    (h4 : env.llm = some llm)
    (h5 : llm.complete elicitPromptText [ev.image.image] = .ok t) :
    ((create_bboxes env ev s).2).getDict r =
      dictSet (s.getDict r) "prompt" (CVal.str t) ∧
    ∀ q, q < s.store.length → q ≠ r →
      ((create_bboxes env ev s).2).getDict q = s.getDict q := by
  have hstate : (create_bboxes_try env ev s).2
      = s.setDict r (dictSet (s.getDict r) "prompt" (CVal.str t)) := by
    rw [create_bboxes_try, h1]
    dsimp only
    rw [if_neg (by simp [h2]), if_neg (by simp [h3]), h4]
    dsimp only
    rw [h5]
    dsimp only
    rw [getDict_setDict_self s r _ hr, dictGet_dictSet_self]
    dsimp only
    split
    · rfl
    · split <;> rfl
  rcases htry : create_bboxes_try env ev s with ⟨res, s2⟩
  rw [htry] at hstate
  dsimp only at hstate
  subst hstate
  rw [create_bboxes, htry]
  cases res with
  | error e =>
    refine ⟨getDict_setDict_self s r _ hr, fun q _ hq => ?_⟩
    exact getDict_setDict_ne s r q _ hq
  | ok u =>
    refine ⟨getDict_setDict_self s r _ hr, fun q _ hq => ?_⟩
    exact getDict_setDict_ne s r q _ hq

/-- Witness for the amended C9 at a concrete path-input run. -/
theorem C9_witness :
    ((create_bboxes envOK c9Loaded c9Pair.2).2).getDict 1 =
      dictSet (c9Pair.2.getDict 1) "prompt" (CVal.str "chair\ntable") :=
  (C9_amended_prompt_written_to_event_copy envOK c9Loaded c9Pair.2 1 llmOK
    "chair\ntable" (by rfl) (by decide) (by decide) (by decide) rfl
    (by rfl)).1
